import Mathlib

/-!
Verification of the filmsy-server content-catalog data access and query
layer (src/schema.ts, src/storage.ts, src/routes.ts).

The relational store is modelled as lists of rows; every storage method of
`DatabaseStorage` becomes a pure function on those lists, translated from
the single SQL statement the method issues.  Timestamps are `Nat`; row ids
are `String` (the database generates them; handlers that insert a row take
the generated id as an explicit argument).  `ORDER BY x DESC` is modelled
with Mathlib's `insertionSort` under the matching total preorder, and the
SQL `ILIKE` pattern match is modelled by `likeMatch` below ('%' matches any
run of characters, '_' matches one character, a backslash escapes the
following pattern character as PostgreSQL's default escape does, and any
other pattern character matches case-insensitively).
-/

namespace Filmsy

/-- Row of the `content` table (src/schema.ts).  The media/metadata columns
(description, URLs, year, duration, rating, genres, cast, director) are
never consulted by any query predicate, ordering or claim, so they are
omitted from the row model; the columns that queries read or write are kept
under their source names.  `viewCount` defaults to 0 and `isActive` /
`isFeatured` default to true / false on insert, mirroring the column
defaults. -/
structure Content where
  id : String
  title : String
  type : String
  isActive : Bool
  isFeatured : Bool
  viewCount : Nat
  createdAt : Nat
  updatedAt : Nat
deriving Repr, DecidableEq

/-- Row of the `episodes` table (src/schema.ts), again keeping the columns
the storage layer reads or writes. -/
structure Episode where
  id : String
  contentId : String
  title : String
  episodeNumber : Nat
  seasonNumber : Nat
  videoUrl : String
  createdAt : Nat
deriving Repr, DecidableEq

/-- Row of the `favorites` table (src/schema.ts). -/
structure Favorite where
  id : String
  userId : String
  contentId : String
  createdAt : Nat
deriving Repr, DecidableEq

/-- The database state the routes operate on: the three tables the claims
concern (the `users` and `sessions` tables are owned by the external auth
subsystem and no claim touches them). -/
structure DB where
  content : List Content
  episodes : List Episode
  favorites : List Favorite
deriving Repr, DecidableEq

/-- Relation for `ORDER BY created_at DESC`: `a` comes before `b` when `a` is at least as
new. -/
def byNewest (a b : Content) : Prop := b.createdAt ≤ a.createdAt

instance : DecidableRel byNewest :=
  fun a b => inferInstanceAs (Decidable (b.createdAt ≤ a.createdAt))

instance : IsTotal Content byNewest :=
  ⟨fun a b => Nat.le_total b.createdAt a.createdAt⟩

instance : IsTrans Content byNewest :=
  ⟨fun _ _ _ hab hbc => Nat.le_trans hbc hab⟩

/-- Relation for `ORDER BY view_count DESC`. -/
def byMostViewed (a b : Content) : Prop := b.viewCount ≤ a.viewCount

instance : DecidableRel byMostViewed :=
  fun a b => inferInstanceAs (Decidable (b.viewCount ≤ a.viewCount))

instance : IsTotal Content byMostViewed :=
  ⟨fun a b => Nat.le_total b.viewCount a.viewCount⟩

instance : IsTrans Content byMostViewed :=
  ⟨fun _ _ _ hab hbc => Nat.le_trans hbc hab⟩

/-- All suffixes of a character list, longest first (including the list
itself and `[]`). -/
def tailsOf : List Char → List (List Char)
  | [] => [[]]
  | c :: cs => (c :: cs) :: tailsOf cs

/-- SQL `ILIKE` pattern matching, case-insensitive: a backslash escapes the
following pattern character (PostgreSQL's default escape, so an escaped
`'%'`, `'_'` or backslash matches itself literally), `'%'` matches any run
of characters (via `tailsOf`: some suffix of the subject matches the rest
of the pattern), `'_'` matches exactly one character, and every other
pattern character matches itself case-insensitively.  A pattern ending in
a dangling escape character is an error in PostgreSQL (the query returns
no rows); it is modelled as matching nothing, and the patterns the code
builds always end in `'%'` so the case is unreachable from
`searchContent`. -/
def likeMatch : List Char → List Char → Bool
  | [], s => s.isEmpty
  | p :: ps, s =>
    if p = '\\' then
      match ps with
      | [] => false
      | e :: ps2 =>
        match s with
        | [] => false
        | c :: t => (e.toLower == c.toLower) && likeMatch ps2 t
    else if p = '%' then (tailsOf s).any (fun t => likeMatch ps t)
    else if p = '_' then
      match s with
      | [] => false
      | _ :: t => likeMatch ps t
    else
      match s with
      | [] => false
      | c :: t => (p.toLower == c.toLower) && likeMatch ps t
termination_by structural p => p

/-- Defining equation of `likeMatch` on the empty pattern. -/
lemma likeMatch_nil (s : List Char) : likeMatch [] s = s.isEmpty := rfl

/-- Defining equation of `likeMatch` on a pattern starting with a
character. -/
lemma likeMatch_cons (p : Char) (ps s : List Char) :
    likeMatch (p :: ps) s =
      if p = '\\' then
        match ps with
        | [] => false
        | e :: ps2 =>
          match s with
          | [] => false
          | c :: t => (e.toLower == c.toLower) && likeMatch ps2 t
      else if p = '%' then (tailsOf s).any (fun t => likeMatch ps t)
      else if p = '_' then
        match s with
        | [] => false
        | _ :: t => likeMatch ps t
      else
        match s with
        | [] => false
        | c :: t => (p.toLower == c.toLower) && likeMatch ps t := by
  rw [likeMatch.eq_def]

/-- The pattern `searchContent` builds: `%` + query + `%`
(src/storage.ts line 112). -/
def sqlPattern (q : String) : List Char := ("%" ++ q ++ "%").toList

/-- Case-insensitive "q is an initial segment of s", character by
character. -/
def headMatchCI : List Char → List Char → Bool
  | [], _ => true
  | _ :: _, [] => false
  | p :: ps, c :: cs => (p.toLower == c.toLower) && headMatchCI ps cs

/-- Case-insensitive occurrence of `q` somewhere in `s`: some suffix of `s`
starts with `q` up to case. -/
def occursCI (q s : List Char) : Bool :=
  (tailsOf s).any (fun t => headMatchCI q t)

/-- The spec's notion for `searchContent`: the title contains the query as a
case-insensitive substring. -/
def containsCI (s q : String) : Bool := occursCI q.toList s.toList

/-! ### Storage-layer content queries (src/storage.ts) -/

/-- Query `getAllContent`: active rows, newest first. -/
def getAllContent (c : List Content) : List Content :=
  List.insertionSort byNewest (c.filter (fun r => r.isActive))

/-- Query `getContentById`: the active row with the given id, if any.  The SQL
`WHERE id = $1 AND is_active = true` returns at most one row (id is the
primary key); on a list model this is the first match. -/
def getContentById (id : String) (c : List Content) : Option Content :=
  c.find? (fun r => r.id == id && r.isActive)

/-- Query `getContentByType`: active rows of the given type, newest first. -/
def getContentByType (ty : String) (c : List Content) : List Content :=
  List.insertionSort byNewest (c.filter (fun r => r.type == ty && r.isActive))

/-- Query `getFeaturedContent`: destructures the first row of the featured+active
rows ordered newest first, hence at most one result. -/
def getFeaturedContent (c : List Content) : Option Content :=
  (List.insertionSort byNewest
    (c.filter (fun r => r.isFeatured && r.isActive))).head?

/-- Query `getPopularContent`: active rows by view count descending, `LIMIT 20`. -/
def getPopularContent (c : List Content) : List Content :=
  (List.insertionSort byMostViewed (c.filter (fun r => r.isActive))).take 20

/-- Query `getNewContent`: active rows newest first, `LIMIT 20`. -/
def getNewContent (c : List Content) : List Content :=
  (List.insertionSort byNewest (c.filter (fun r => r.isActive))).take 20

/-- Query `searchContent`: active rows whose title matches the `ILIKE` pattern
`%query%`, newest first. -/
def searchContent (q : String) (c : List Content) : List Content :=
  List.insertionSort byNewest
    (c.filter (fun r => r.isActive && likeMatch (sqlPattern q) r.title.toList))

/-! ### Storage-layer content mutations (src/storage.ts) -/

/-- The payload accepted by `insertContentSchema`
(src/schema.ts lines 110-115): `createInsertSchema(content)` with `id`,
`createdAt`, `updatedAt` and `viewCount` omitted, so a client can never
supply a view count or id.  `title` and `type` are the NOT NULL columns;
`isActive`/`isFeatured` are optional because the columns have defaults. -/
structure InsertContent where
  title : String
  type : String
  isActive : Option Bool
  isFeatured : Option Bool
deriving Repr, DecidableEq

/-- Row produced by `createContent`: the database fills the generated id,
the column defaults (`isActive` true, `isFeatured` false, `viewCount` 0)
and the timestamps. -/
def createContentRow (d : InsertContent) (newId : String) (now : Nat) :
    Content :=
  { id := newId, title := d.title, type := d.type,
    isActive := d.isActive.getD true, isFeatured := d.isFeatured.getD false,
    viewCount := 0, createdAt := now, updatedAt := now }

/-- Mutation `createContent`: `INSERT INTO content ... RETURNING *`. -/
def createContent (d : InsertContent) (newId : String) (now : Nat)
    (c : List Content) : List Content :=
  c ++ [createContentRow d newId now]

/-- The payload produced by `insertContentSchema.partial().parse` and
consumed by the storage `updateContent`: every field optional, each
present field overwrites its column.  Like the insert schema it has no
`viewCount`, `id` or timestamp fields. -/
structure ContentBody where
  title : Option String
  type : Option String
  isActive : Option Bool
  isFeatured : Option Bool
deriving Repr, DecidableEq

/-- Value of one field of a JSON request body as the Zod schema sees it:
missing, present but not of the declared type, or present with a value of
the declared type. -/
inductive BodyField (α : Type) where
  | absent
  | invalid
  | value (a : α)
deriving Repr, DecidableEq

/-- Raw body of the admin content routes before validation, one field per
column the insert schema accepts — like the schema it has no `viewCount`,
`id` or timestamp fields, so those columns cannot even be submitted. -/
structure RawContentBody where
  title : BodyField String
  type : BodyField String
  isActive : BodyField Bool
  isFeatured : BodyField Bool
deriving Repr, DecidableEq

/-- Validation of one optional schema field: a missing field parses to
`none`, a wrongly-typed field fails the parse, a well-typed field parses
to its value. -/
def parseOptionalField {α : Type} : BodyField α → Option (Option α)
  | .absent => some none
  | .invalid => none
  | .value a => some (some a)

/-- Validation of one required (NOT NULL, no default) schema field: the
field must be present with the declared type. -/
def parseRequiredField {α : Type} : BodyField α → Option α
  | .absent => none
  | .invalid => none
  | .value a => some a

/-- Validation `insertContentSchema.parse`: the NOT NULL columns `title`
and `type` must be present and well-typed; the flag columns may be missing
(they have defaults) but fail the parse when wrongly typed. -/
def parseInsertContent (b : RawContentBody) : Option InsertContent :=
  match parseRequiredField b.title, parseRequiredField b.type,
      parseOptionalField b.isActive, parseOptionalField b.isFeatured with
  | some t, some ty, some ia, some ife => some ⟨t, ty, ia, ife⟩
  | _, _, _, _ => none

/-- Validation `insertContentSchema.partial().parse` as used by
`PUT /api/admin/content/:id`: every field becomes optional, so a missing
field is fine, but a present field of the wrong type still raises
`ZodError`. -/
def parseContentUpdate (b : RawContentBody) : Option ContentBody :=
  match parseOptionalField b.title, parseOptionalField b.type,
      parseOptionalField b.isActive, parseOptionalField b.isFeatured with
  | some t, some ty, some ia, some ife => some ⟨t, ty, ia, ife⟩
  | _, _, _, _ => none

/-- Effect of `updateContent` on one row: `SET { ...data, updatedAt: new
Date() }` — each supplied field overwrites the column, `updatedAt` is
refreshed, and `id`, `viewCount`, `createdAt` are untouched (the parsed
data cannot contain them). -/
def applyUpdate (d : ContentBody) (now : Nat) (r : Content) : Content :=
  { r with
    title := d.title.getD r.title,
    type := d.type.getD r.type,
    isActive := d.isActive.getD r.isActive,
    isFeatured := d.isFeatured.getD r.isFeatured,
    updatedAt := now }

/-- Mutation `updateContent`: `UPDATE content SET ... WHERE id = $1` — no
`isActive` filter. -/
def updateContent (id : String) (d : ContentBody) (now : Nat)
    (c : List Content) : List Content :=
  c.map (fun r => if r.id == id then applyUpdate d now r else r)

/-- Mutation `deleteContent`: `DELETE FROM content WHERE id = $1` — a hard delete
with no `isActive` filter. -/
def deleteContent (id : String) (c : List Content) : List Content :=
  c.filter (fun r => !(r.id == id))

/-- Mutation `incrementViewCount`: the single atomic statement
`UPDATE content SET view_count = view_count + 1 WHERE id = $1`.  The whole
read-add-write happens inside this one statement at the store; the handler
never reads the counter to write it back. -/
def incrementViewCount (id : String) (c : List Content) : List Content :=
  c.map (fun r => if r.id == id then { r with viewCount := r.viewCount + 1 }
         else r)

/-! ### Episode and favorite operations (src/storage.ts) -/

/-- Relation for `ORDER BY season_number, episode_number` ascending. -/
def byEpisodeOrder (a b : Episode) : Prop :=
  a.seasonNumber < b.seasonNumber ∨
    (a.seasonNumber = b.seasonNumber ∧ a.episodeNumber ≤ b.episodeNumber)

instance : DecidableRel byEpisodeOrder := fun a b =>
  inferInstanceAs (Decidable (a.seasonNumber < b.seasonNumber ∨
    (a.seasonNumber = b.seasonNumber ∧ a.episodeNumber ≤ b.episodeNumber)))

/-- Query `getEpisodesByContentId`: the episodes of one content item ordered by
season then episode number. -/
def getEpisodesByContentId (contentId : String) (es : List Episode) :
    List Episode :=
  List.insertionSort byEpisodeOrder (es.filter (fun e => e.contentId == contentId))

/-- The payload accepted by `insertEpisodeSchema` (src/schema.ts lines
117-120): `id` and `createdAt` omitted; `contentId`, `title`,
`episodeNumber` and `videoUrl` are NOT NULL, `seasonNumber` defaults
to 1. -/
structure InsertEpisode where
  contentId : String
  title : String
  episodeNumber : Nat
  seasonNumber : Option Nat
  videoUrl : String
deriving Repr, DecidableEq

/-- Request body for episode creation before validation. -/
structure EpisodeBody where
  contentId : Option String
  title : Option String
  episodeNumber : Option Nat
  seasonNumber : Option Nat
  videoUrl : Option String
deriving Repr, DecidableEq

/-- Validation `insertEpisodeSchema.parse`: succeeds exactly when the four required
columns are present. -/
def parseInsertEpisode (b : EpisodeBody) : Option InsertEpisode :=
  match b.contentId, b.title, b.episodeNumber, b.videoUrl with
  | some cid, some t, some en, some vu => some ⟨cid, t, en, b.seasonNumber, vu⟩
  | _, _, _, _ => none

/-- Mutation `createEpisode`: insert with generated id and the season default. -/
def createEpisode (d : InsertEpisode) (newId : String) (now : Nat)
    (es : List Episode) : List Episode :=
  es ++ [⟨newId, d.contentId, d.title, d.episodeNumber,
          d.seasonNumber.getD 1, d.videoUrl, now⟩]

/-- Mutation `addToFavorites`: a plain insert — no uniqueness check, so duplicate
(userId, contentId) rows are possible. -/
def addToFavorites (f : Favorite) (favs : List Favorite) : List Favorite :=
  favs ++ [f]

/-- Mutation `removeFromFavorites`: `DELETE FROM favorites WHERE user_id = $1 AND
content_id = $2` — deletes every matching row. -/
def removeFromFavorites (userId contentId : String) (favs : List Favorite) :
    List Favorite :=
  favs.filter (fun f => !(f.userId == userId && f.contentId == contentId))

/-- Query `isFavorite`: existence check on (userId, contentId). -/
def isFavorite (userId contentId : String) (favs : List Favorite) : Bool :=
  favs.any (fun f => f.userId == userId && f.contentId == contentId)

/-- Query `getUserFavorites`: inner join of favorites with active content. -/
def getUserFavorites (userId : String) (db : DB) : List Content :=
  (db.favorites.filter (fun f => f.userId == userId)).filterMap
    (fun f => db.content.find? (fun r => r.id == f.contentId && r.isActive))

/-! ### Request handlers (src/routes.ts)

Each handler is modelled as a function from its parsed inputs and the
database state to an HTTP status code and the new state.  A body field that
is absent or not of the schema type is modelled as `none`. -/

/-- The hardcoded admin secret (src/routes.ts line 8). -/
def ADMIN_PASSWORD : String := "cla-SAMU20"

/-- Handler for `GET /api/content/:id`: look the row up (active rows only);
404 and no write when absent, otherwise respond with the row read and then
increment its view count. -/
def getContentByIdRoute (id : String) (c : List Content) :
    (Nat × Option Content) × List Content :=
  match getContentById id c with
  | none => ((404, none), c)
  | some r => ((200, some r), incrementViewCount id c)

/-- The favorite insert payload after the route merges the session user id
into the body: only `contentId` still comes from the client. -/
structure FavBody where
  contentId : Option String
deriving Repr, DecidableEq

/-- Validation for the favorite insert: the route spreads the session
user id into the body before parsing, so `userId` is
always present (from the session), so parsing succeeds exactly when
`contentId` is present. -/
def parseInsertFavorite (userId : String) (b : FavBody) :
    Option (String × String) :=
  match b.contentId with
  | none => none
  | some cid => some (userId, cid)

/-- Handler for `POST /api/favorites`.  Its `catch` block has no
`ZodError` branch: any error, a schema validation failure included, is
answered with status 500. -/
def postFavorites (userId : String) (b : FavBody) (newId : String)
    (now : Nat) (db : DB) : Nat × DB :=
  match parseInsertFavorite userId b with
  | none => (500, db)
  | some (u, cid) =>
    (201, { db with favorites := addToFavorites ⟨newId, u, cid, now⟩ db.favorites })

/-- Handler for `DELETE /api/favorites/:contentId`. -/
def deleteFavoriteRoute (userId contentId : String) (db : DB) : Nat × DB :=
  (204, { db with favorites := removeFromFavorites userId contentId db.favorites })

/-- Handler for `POST /api/admin/verify`: a static string comparison. -/
def adminVerify (pw : Option String) : Nat :=
  if pw = some ADMIN_PASSWORD then 200 else 401

/-- Handler for `POST /api/admin/content`: the `checkAdminPassword`
middleware answers 401 before the handler body runs when the submitted
password differs from the secret; then a `ZodError` is answered with 400,
and a valid body is inserted with 201. -/
def adminCreateContent (pw : Option String) (b : RawContentBody)
    (newId : String) (now : Nat) (db : DB) : Nat × DB :=
  if pw ≠ some ADMIN_PASSWORD then (401, db)
  else match parseInsertContent b with
    | none => (400, db)
    | some d => (201, { db with content := createContent d newId now db.content })

/-- Handler for `PUT /api/admin/content/:id`: password gate, then
`insertContentSchema.partial()` validation — a `ZodError` (a wrongly-typed
field) is answered with 400 and nothing is written — then the parsed
partial body is applied to the row with that id. -/
def adminUpdateContent (pw : Option String) (id : String)
    (b : RawContentBody) (now : Nat) (db : DB) : Nat × DB :=
  if pw ≠ some ADMIN_PASSWORD then (401, db)
  else match parseContentUpdate b with
    | none => (400, db)
    | some d => (200, { db with content := updateContent id d now db.content })

/-- Handler for `DELETE /api/admin/content/:id`: password gate, then a hard
delete. -/
def adminDeleteContent (pw : Option String) (id : String) (db : DB) :
    Nat × DB :=
  if pw ≠ some ADMIN_PASSWORD then (401, db)
  else (204, { db with content := deleteContent id db.content })

/-- Handler for `POST /api/admin/episodes`: password gate, then schema
validation (400 on failure), then insert. -/
def adminCreateEpisode (pw : Option String) (b : EpisodeBody)
    (newId : String) (now : Nat) (db : DB) : Nat × DB :=
  if pw ≠ some ADMIN_PASSWORD then (401, db)
  else match parseInsertEpisode b with
    | none => (400, db)
    | some d => (201, { db with episodes := createEpisode d newId now db.episodes })

/-- The HTTP surface of src/routes.ts, one constructor per route (the
`GET /api/content` query-flag variants are separate constructors; the
auth-owned `GET /api/auth/user` touches only the external users table and
is outside the modelled state). -/
inductive Request where
  | contentAll
  | contentFeatured
  | contentPopular
  | contentNew
  | contentSearch (q : String)
  | contentOfType (ty : String)
  | getContent (id : String)
  | getEpisodes (contentId : String)
  | listFavorites (userId : String)
  | addFavorite (userId : String) (b : FavBody) (newId : String) (now : Nat)
  | removeFavorite (userId contentId : String)
  | checkFavorite (userId contentId : String)
  | verifyAdmin (pw : Option String)
  | createContentReq (pw : Option String) (b : RawContentBody) (newId : String) (now : Nat)
  | updateContentReq (pw : Option String) (id : String) (b : RawContentBody) (now : Nat)
  | deleteContentReq (pw : Option String) (id : String)
  | createEpisodeReq (pw : Option String) (b : EpisodeBody) (newId : String) (now : Nat)

/-- State transition of each route: the status code returned and the
database afterwards.  The read-only routes issue a single SELECT (their
payloads are the pure query functions above) and leave the state
unchanged; `GET /api/content/:id` is the one read that also writes. -/
def handleRequest : Request → DB → Nat × DB
  | .contentAll, db => (200, db)
  | .contentFeatured, db => (200, db)
  | .contentPopular, db => (200, db)
  | .contentNew, db => (200, db)
  | .contentSearch _, db => (200, db)
  | .contentOfType _, db => (200, db)
  | .getContent id, db =>
    ((getContentByIdRoute id db.content).1.1,
     { db with content := (getContentByIdRoute id db.content).2 })
  | .getEpisodes _, db => (200, db)
  | .listFavorites _, db => (200, db)
  | .addFavorite u b newId now, db => postFavorites u b newId now db
  | .removeFavorite u cid, db => deleteFavoriteRoute u cid db
  | .checkFavorite _ _, db => (200, db)
  | .verifyAdmin pw, db => (adminVerify pw, db)
  | .createContentReq pw b newId now, db => adminCreateContent pw b newId now db
  | .updateContentReq pw id b now, db => adminUpdateContent pw id b now db
  | .deleteContentReq pw id, db => adminDeleteContent pw id db
  | .createEpisodeReq pw b newId now, db => adminCreateEpisode pw b newId now db

/-- Lookup of a content row by primary key alone (used to observe a row
across an operation, independently of the soft-delete flag). -/
def lookupContent (id : String) (c : List Content) : Option Content :=
  c.find? (fun r => r.id == id)

/-- Whether a request bumps the view counter of the row with the given id:
only `GET /api/content/:id` does, and only when an active row with that id
exists (otherwise the handler returns 404 before the UPDATE). -/
def bumpsView : Request → String → List Content → Bool
  | .getContent rid, id, c => rid == id && (getContentById rid c).isSome
  | _, _, _ => false

/-! ### Helper lemmas -/

/-- The head of a list is a member. -/
lemma head?_mem {α : Type} {l : List α} {a : α} (h : l.head? = some a) :
    a ∈ l := by
  cases l with
  | nil => simp at h
  | cons x t =>
    simp only [List.head?] at h
    injection h with h
    exact h ▸ List.mem_cons_self x t

/-- Lookup by id commutes with mapping an id-preserving function. -/
lemma lookupContent_map (f : Content → Content)
    (hf : ∀ r, (f r).id = r.id) (id : String) (c : List Content) :
    lookupContent id (c.map f) = (lookupContent id c).map f := by
  induction c with
  | nil => rfl
  | cons a t ih =>
    unfold lookupContent at *
    by_cases h : (a.id == id) = true
    · rw [List.map_cons,
        List.find?_cons_of_pos (p := fun r : Content => r.id == id) _
          (by show ((f a).id == id) = true; rw [hf a]; exact h),
        List.find?_cons_of_pos (p := fun r : Content => r.id == id) _ h,
        Option.map_some']
    · rw [List.map_cons,
        List.find?_cons_of_neg (p := fun r : Content => r.id == id) _
          (by show ¬((f a).id == id) = true; rw [hf a]; exact h),
        List.find?_cons_of_neg (p := fun r : Content => r.id == id) _ h]
      exact ih

/-- Lookup by id is unchanged by appending rows when it already succeeds. -/
lemma lookupContent_append {id : String} {c : List Content}
    {r : Content} (l : List Content) (h : lookupContent id c = some r) :
    lookupContent id (c ++ l) = some r := by
  unfold lookupContent at *
  rw [List.find?_append, h, Option.or_some]

/-- Lookup by id passes through a filter that keeps every row with that
id. -/
lemma lookupContent_filter (keep : Content → Bool) (id : String)
    (c : List Content) (h : ∀ x : Content, (x.id == id) = true → keep x = true) :
    lookupContent id (c.filter keep) = lookupContent id c := by
  induction c with
  | nil => rfl
  | cons a t ih =>
    unfold lookupContent at *
    by_cases hp : (a.id == id) = true
    · rw [List.filter_cons, if_pos (h a hp),
        List.find?_cons_of_pos (p := fun r : Content => r.id == id) _ hp,
        List.find?_cons_of_pos (p := fun r : Content => r.id == id) _ hp]
    · rw [List.find?_cons_of_neg (p := fun r : Content => r.id == id) _ hp,
        List.filter_cons]
      by_cases hk : keep a = true
      · rw [if_pos hk,
          List.find?_cons_of_neg (p := fun r : Content => r.id == id) _ hp]
        exact ih
      · rw [if_neg hk]; exact ih

/-- Deleting by id removes every row `find?` by that id could return. -/
lemma lookupContent_delete (id : String) (c : List Content) :
    lookupContent id (deleteContent id c) = none := by
  apply List.find?_eq_none.mpr
  intro x hx
  have hkeep := (List.mem_filter.mp hx).2
  simpa using hkeep

/-- A successful `getContentById` persists across `incrementViewCount` on
the same id, with the counter one higher. -/
lemma getContentById_increment (id : String) (c : List Content)
    (r : Content) (h : getContentById id c = some r) :
    getContentById id (incrementViewCount id c) =
      some { r with viewCount := r.viewCount + 1 } := by
  induction c with
  | nil => simp [getContentById] at h
  | cons a t ih =>
    unfold getContentById incrementViewCount at *
    rw [List.map_cons]
    by_cases hid : (a.id == id) = true
    · rw [if_pos hid]
      by_cases hact : a.isActive = true
      · have hp : (a.id == id && a.isActive) = true := by rw [hid, hact]; rfl
        rw [List.find?_cons_of_pos
          (p := fun r : Content => r.id == id && r.isActive) _ hp] at h
        injection h with h
        subst h
        have hbump : ((({ a with viewCount := a.viewCount + 1 } :
            Content)).id == id &&
            (({ a with viewCount := a.viewCount + 1 } :
              Content)).isActive) = true := hp
        rw [List.find?_cons_of_pos
          (p := fun r : Content => r.id == id && r.isActive) _ hbump]
      · have hp : ¬(a.id == id && a.isActive) = true := by simp [hact]
        rw [List.find?_cons_of_neg
          (p := fun r : Content => r.id == id && r.isActive) _ hp] at h
        have hbump : ¬((({ a with viewCount := a.viewCount + 1 } :
            Content)).id == id &&
            (({ a with viewCount := a.viewCount + 1 } :
              Content)).isActive) = true := hp
        rw [List.find?_cons_of_neg
          (p := fun r : Content => r.id == id && r.isActive) _ hbump]
        exact ih h
    · rw [if_neg hid]
      have hp : ¬(a.id == id && a.isActive) = true := by simp [hid]
      rw [List.find?_cons_of_neg
        (p := fun r : Content => r.id == id && r.isActive) _ hp] at h
      rw [List.find?_cons_of_neg
        (p := fun r : Content => r.id == id && r.isActive) _ hp]
      exact ih h

/-! ### C1 -/

/-- C1: a content row with `isActive = false` never appears in the results
of `getAllContent`, `getContentByType`, `getFeaturedContent`,
`getPopularContent`, `getNewContent` or `searchContent` (all of which
filter on `isActive = true`), yet `updateContent` applied at its id still
rewrites the row and `deleteContent` still removes it, because neither
filters on `isActive`. -/
theorem inactive_hidden_but_mutable (c : List Content) (r : Content)
    (ty q : String) (d : ContentBody) (now : Nat)
    (hmem : r ∈ c) (hinactive : r.isActive = false) :
    r ∉ getAllContent c ∧
    r ∉ getContentByType ty c ∧
    getFeaturedContent c ≠ some r ∧
    r ∉ getPopularContent c ∧
    r ∉ getNewContent c ∧
    r ∉ searchContent q c ∧
    applyUpdate d now r ∈ updateContent r.id d now c ∧
    r ∉ deleteContent r.id c := by
  refine ⟨?_, ?_, ?_, ?_, ?_, ?_, ?_, ?_⟩
  · simp [getAllContent, List.mem_filter, hinactive]
  · simp [getContentByType, List.mem_filter, hinactive]
  · intro h
    have hm := head?_mem h
    rw [List.mem_insertionSort] at hm
    have := (List.mem_filter.mp hm).2
    rw [hinactive] at this
    simp at this
  · intro h
    have hm := List.take_subset _ _ h
    rw [List.mem_insertionSort] at hm
    have := (List.mem_filter.mp hm).2
    rw [hinactive] at this
    simp at this
  · intro h
    have hm := List.take_subset _ _ h
    rw [List.mem_insertionSort] at hm
    have := (List.mem_filter.mp hm).2
    rw [hinactive] at this
    simp at this
  · simp [searchContent, List.mem_filter, hinactive]
  · unfold updateContent
    refine List.mem_map.mpr ⟨r, hmem, ?_⟩
    simp
  · simp [deleteContent, List.mem_filter]

/-- Concrete instantiation of `inactive_hidden_but_mutable`: an inactive
row is invisible to all six reads and still reachable by update and
delete. -/
theorem inactive_hidden_but_mutable_witness :
    (⟨"2", "Hidden", "movie", false, true, 9, 5, 5⟩ : Content) ∉
      getAllContent [⟨"1", "A", "movie", true, false, 0, 0, 0⟩,
        ⟨"2", "Hidden", "movie", false, true, 9, 5, 5⟩] ∧
    (⟨"2", "Hidden", "movie", false, true, 9, 5, 5⟩ : Content) ∉
      getContentByType "movie" [⟨"1", "A", "movie", true, false, 0, 0, 0⟩,
        ⟨"2", "Hidden", "movie", false, true, 9, 5, 5⟩] ∧
    getFeaturedContent [⟨"1", "A", "movie", true, false, 0, 0, 0⟩,
        ⟨"2", "Hidden", "movie", false, true, 9, 5, 5⟩] ≠
      some ⟨"2", "Hidden", "movie", false, true, 9, 5, 5⟩ ∧
    (⟨"2", "Hidden", "movie", false, true, 9, 5, 5⟩ : Content) ∉
      getPopularContent [⟨"1", "A", "movie", true, false, 0, 0, 0⟩,
        ⟨"2", "Hidden", "movie", false, true, 9, 5, 5⟩] ∧
    (⟨"2", "Hidden", "movie", false, true, 9, 5, 5⟩ : Content) ∉
      getNewContent [⟨"1", "A", "movie", true, false, 0, 0, 0⟩,
        ⟨"2", "Hidden", "movie", false, true, 9, 5, 5⟩] ∧
    (⟨"2", "Hidden", "movie", false, true, 9, 5, 5⟩ : Content) ∉
      searchContent "hid" [⟨"1", "A", "movie", true, false, 0, 0, 0⟩,
        ⟨"2", "Hidden", "movie", false, true, 9, 5, 5⟩] ∧
    applyUpdate ⟨some "Renamed", none, none, none⟩ 7
        ⟨"2", "Hidden", "movie", false, true, 9, 5, 5⟩ ∈
      updateContent "2" ⟨some "Renamed", none, none, none⟩ 7
        [⟨"1", "A", "movie", true, false, 0, 0, 0⟩,
         ⟨"2", "Hidden", "movie", false, true, 9, 5, 5⟩] ∧
    (⟨"2", "Hidden", "movie", false, true, 9, 5, 5⟩ : Content) ∉
      deleteContent "2" [⟨"1", "A", "movie", true, false, 0, 0, 0⟩,
        ⟨"2", "Hidden", "movie", false, true, 9, 5, 5⟩] :=
  inactive_hidden_but_mutable
    [⟨"1", "A", "movie", true, false, 0, 0, 0⟩,
     ⟨"2", "Hidden", "movie", false, true, 9, 5, 5⟩]
    ⟨"2", "Hidden", "movie", false, true, 9, 5, 5⟩
    "movie" "hid" ⟨some "Renamed", none, none, none⟩ 7
    (by decide) (by decide)

/-! ### C2 -/

/-- C2: `incrementViewCount` is the single atomic statement
`SET view_count = view_count + 1 WHERE id = $1`, so each of the N
concurrent invocations is one atomic store-level transition and any
interleaving of them is the N-fold iterate of that transition.  The
iterate adds exactly N to the view count of every row with the given id
and leaves every other row untouched: no update is lost. -/
theorem incrementViewCount_iterate_adds_N (id : String) (N : Nat)
    (c : List Content) :
    (incrementViewCount id)^[N] c =
      c.map (fun r => if r.id == id then
        { r with viewCount := r.viewCount + N } else r) := by
  induction N with
  | zero =>
    have hfun : (fun r : Content => if r.id == id then
        { r with viewCount := r.viewCount + 0 } else r) = fun r => r := by
      funext r
      by_cases h : (r.id == id) = true
      · rw [if_pos h]
        rfl
      · rw [if_neg h]
    rw [Function.iterate_zero, id_eq, hfun, List.map_id']
  | succ n ih =>
    rw [Function.iterate_succ_apply', ih]
    unfold incrementViewCount
    rw [List.map_map]
    have hfun : ((fun r : Content => if r.id == id then
          { r with viewCount := r.viewCount + 1 } else r) ∘
        (fun r : Content => if r.id == id then
          { r with viewCount := r.viewCount + n } else r)) =
        fun r : Content => if r.id == id then
          { r with viewCount := r.viewCount + (n + 1) } else r := by
      funext r
      by_cases h : (r.id == id) = true
      · simp only [Function.comp_apply, if_pos h]
        rfl
      · simp only [Function.comp_apply, if_neg h]
    rw [hfun]

/-! ### C5 -/

/-- C5: every admin route answers 401 and leaves the database untouched
whenever the submitted password is not the configured secret, regardless
of the rest of the payload — the `checkAdminPassword` middleware (and the
inline check of `POST /api/admin/verify`) runs before any parsing or
storage call. -/
theorem admin_wrong_password_rejected (pw : Option String)
    (h : pw ≠ some ADMIN_PASSWORD) (cb : RawContentBody) (eb : EpisodeBody)
    (id newId : String) (now : Nat) (db : DB) :
    adminCreateContent pw cb newId now db = (401, db) ∧
    adminUpdateContent pw id cb now db = (401, db) ∧
    adminDeleteContent pw id db = (401, db) ∧
    adminCreateEpisode pw eb newId now db = (401, db) ∧
    adminVerify pw = 401 := by
  refine ⟨?_, ?_, ?_, ?_, ?_⟩
  · rw [adminCreateContent, if_pos h]
  · rw [adminUpdateContent, if_pos h]
  · rw [adminDeleteContent, if_pos h]
  · rw [adminCreateEpisode, if_pos h]
  · rw [adminVerify, if_neg h]

/-- Concrete instantiation of `admin_wrong_password_rejected` with a wrong
password and a fully valid payload. -/
theorem admin_wrong_password_rejected_witness :
    adminCreateContent (some "guess")
        ⟨.value "T", .value "movie", .absent, .absent⟩
        "9" 3 ⟨[], [], []⟩ = (401, ⟨[], [], []⟩) ∧
    adminUpdateContent (some "guess") "1"
        ⟨.value "T", .value "movie", .absent, .absent⟩
        3 ⟨[], [], []⟩ = (401, ⟨[], [], []⟩) ∧
    adminDeleteContent (some "guess") "1" ⟨[], [], []⟩ = (401, ⟨[], [], []⟩) ∧
    adminCreateEpisode (some "guess")
        ⟨some "c1", some "E1", some 1, some 1, some "u"⟩ "9" 3 ⟨[], [], []⟩ =
      (401, ⟨[], [], []⟩) ∧
    adminVerify (some "guess") = 401 :=
  admin_wrong_password_rejected (some "guess") (by decide)
    ⟨.value "T", .value "movie", .absent, .absent⟩
    ⟨some "c1", some "E1", some 1, some 1, some "u"⟩ "1" "9" 3 ⟨[], [], []⟩

/-! ### C7 -/

/-- C7: after `addToFavorites` with a (userId, contentId) pair,
`isFavorite` on that pair is true; after `removeFromFavorites` on the
pair, `isFavorite` is false starting from any favorites table — in
particular one already holding duplicate rows for the pair, since the
DELETE removes every matching row. -/
theorem favorites_add_remove_isFavorite (favs : List Favorite)
    (u cid fid : String) (now : Nat) :
    isFavorite u cid (addToFavorites ⟨fid, u, cid, now⟩ favs) = true ∧
    isFavorite u cid (removeFromFavorites u cid favs) = false := by
  constructor
  · simp [isFavorite, addToFavorites, List.any_append]
  · rw [isFavorite, removeFromFavorites]
    by_contra hne
    have hany : (favs.filter fun f =>
        !(f.userId == u && f.contentId == cid)).any
        (fun f => f.userId == u && f.contentId == cid) = true := by
      cases h : (favs.filter fun f =>
          !(f.userId == u && f.contentId == cid)).any
          (fun f => f.userId == u && f.contentId == cid)
      · exact absurd h hne
      · rfl
    obtain ⟨x, hxmem, hxp⟩ := List.any_eq_true.mp hany
    have hxf := (List.mem_filter.mp hxmem).2
    rw [hxp] at hxf
    simp at hxf

/-! ### C3 -/

/-- C3: `GET /api/content/:id` answers 404 and performs no write when no
active row carries the id; when the lookup succeeds it answers 200 with the
row read, runs `incrementViewCount` on the table, and the stored view count
of that row ends up exactly one higher. -/
theorem getContent_route_404_or_increment (c : List Content) (id : String) :
    ((∀ x ∈ c, ¬(x.id = id ∧ x.isActive = true)) →
      getContentByIdRoute id c = ((404, none), c)) ∧
    (∀ r, getContentById id c = some r →
      getContentByIdRoute id c = ((200, some r), incrementViewCount id c) ∧
      getContentById id (incrementViewCount id c) =
        some { r with viewCount := r.viewCount + 1 }) := by
  constructor
  · intro h
    have hnone : getContentById id c = none := by
      apply List.find?_eq_none.mpr
      intro x hx
      intro hpx
      rw [Bool.and_eq_true] at hpx
      exact h x hx ⟨beq_iff_eq.mp hpx.1, hpx.2⟩
    rw [getContentByIdRoute, hnone]
  · intro r hr
    constructor
    · rw [getContentByIdRoute, hr]
    · exact getContentById_increment id c r hr

/-- Concrete instantiation of `getContent_route_404_or_increment`: a miss
is a 404 that leaves the table untouched, and a hit returns the row while
its stored counter goes from 5 to 6. -/
theorem getContent_route_404_or_increment_witness :
    getContentByIdRoute "nope" [⟨"1", "A", "movie", true, false, 5, 0, 0⟩] =
      ((404, none), [⟨"1", "A", "movie", true, false, 5, 0, 0⟩]) ∧
    (getContentByIdRoute "1" [⟨"1", "A", "movie", true, false, 5, 0, 0⟩] =
      ((200, some ⟨"1", "A", "movie", true, false, 5, 0, 0⟩),
        incrementViewCount "1" [⟨"1", "A", "movie", true, false, 5, 0, 0⟩]) ∧
      getContentById "1"
          (incrementViewCount "1" [⟨"1", "A", "movie", true, false, 5, 0, 0⟩]) =
        some ⟨"1", "A", "movie", true, false, 6, 0, 0⟩) :=
  ⟨(getContent_route_404_or_increment
      [⟨"1", "A", "movie", true, false, 5, 0, 0⟩] "nope").1 (by decide),
   (getContent_route_404_or_increment
      [⟨"1", "A", "movie", true, false, 5, 0, 0⟩] "1").2
     ⟨"1", "A", "movie", true, false, 5, 0, 0⟩ (by decide)⟩

/-! ### C10 -/

/-- C10: on a successful `GET /api/content/:id` the handler reads the row
first and increments afterwards, so the `viewCount` in the response is the
stored value from before the increment, and once the request completes the
stored value is the response value plus one. -/
theorem getContent_response_viewCount_stale (c : List Content) (id : String)
    (r : Content) (h : getContentById id c = some r) :
    (getContentByIdRoute id c).1 = (200, some r) ∧
    ∃ r2, getContentById id (getContentByIdRoute id c).2 = some r2 ∧
      r.viewCount + 1 = r2.viewCount := by
  constructor
  · rw [getContentByIdRoute, h]
  · refine ⟨{ r with viewCount := r.viewCount + 1 }, ?_, rfl⟩
    rw [getContentByIdRoute, h]
    exact getContentById_increment id c r h

/-- Concrete instantiation of `getContent_response_viewCount_stale`: the
response carries viewCount 5 while the stored row ends at 6. -/
theorem getContent_response_viewCount_stale_witness :
    (getContentByIdRoute "1" [⟨"1", "A", "movie", true, false, 5, 0, 0⟩]).1 =
      (200, some ⟨"1", "A", "movie", true, false, 5, 0, 0⟩) ∧
    ∃ r2, getContentById "1"
        (getContentByIdRoute "1"
          [⟨"1", "A", "movie", true, false, 5, 0, 0⟩]).2 = some r2 ∧
      (⟨"1", "A", "movie", true, false, 5, 0, 0⟩ : Content).viewCount + 1 =
        r2.viewCount :=
  getContent_response_viewCount_stale
    [⟨"1", "A", "movie", true, false, 5, 0, 0⟩] "1"
    ⟨"1", "A", "movie", true, false, 5, 0, 0⟩ (by decide)

/-! ### C4 -/

/-- C4 counterexample: a `POST /api/favorites` body that fails
`insertFavoriteSchema` (its `contentId` is missing) is answered with
status 500, not the claimed 400 — the handler's catch block has no
`ZodError` branch. -/
theorem postFavorites_schema_failure_is_500 :
    (postFavorites "user1" ⟨none⟩ "f1" 0 ⟨[], [], []⟩).1 = 500 ∧
    (postFavorites "user1" ⟨none⟩ "f1" 0 ⟨[], [], []⟩).1 ≠ 400 := by
  decide

/-- C4 amended: a schema-failing body gets a 400 with field detail on the
admin content and episode endpoints (`POST /api/admin/content`,
`PUT /api/admin/content/:id`, `POST /api/admin/episodes`), whose handlers
test for `ZodError`; on `POST /api/favorites` the same kind of failure
falls into the generic catch and is answered 500.  In every case the
store is untouched. -/
theorem schema_failure_status_by_endpoint (db : DB)
    (newId userId tid : String) (now : Nat) (cb ub : RawContentBody)
    (eb : EpisodeBody) (fb : FavBody)
    (hcb : parseInsertContent cb = none)
    (hub : parseContentUpdate ub = none)
    (heb : parseInsertEpisode eb = none)
    (hfb : parseInsertFavorite userId fb = none) :
    adminCreateContent (some ADMIN_PASSWORD) cb newId now db = (400, db) ∧
    adminUpdateContent (some ADMIN_PASSWORD) tid ub now db = (400, db) ∧
    adminCreateEpisode (some ADMIN_PASSWORD) eb newId now db = (400, db) ∧
    postFavorites userId fb newId now db = (500, db) := by
  refine ⟨?_, ?_, ?_, ?_⟩
  · rw [adminCreateContent, if_neg (by simp), hcb]
  · rw [adminUpdateContent, if_neg (by simp), hub]
  · rw [adminCreateEpisode, if_neg (by simp), heb]
  · rw [postFavorites, hfb]

/-- Concrete instantiation of `schema_failure_status_by_endpoint`: the
create bodies miss a required field, the update body carries a
wrongly-typed `title`. -/
theorem schema_failure_status_by_endpoint_witness :
    adminCreateContent (some ADMIN_PASSWORD)
        ⟨.absent, .value "movie", .absent, .absent⟩
        "9" 3 ⟨[], [], []⟩ = (400, ⟨[], [], []⟩) ∧
    adminUpdateContent (some ADMIN_PASSWORD) "1"
        ⟨.invalid, .absent, .absent, .absent⟩
        3 ⟨[], [], []⟩ = (400, ⟨[], [], []⟩) ∧
    adminCreateEpisode (some ADMIN_PASSWORD) ⟨none, some "E1", some 1, none, some "u"⟩
        "9" 3 ⟨[], [], []⟩ = (400, ⟨[], [], []⟩) ∧
    postFavorites "user1" ⟨none⟩ "9" 3 ⟨[], [], []⟩ = (500, ⟨[], [], []⟩) :=
  schema_failure_status_by_endpoint ⟨[], [], []⟩ "9" "user1" "1" 3
    ⟨.absent, .value "movie", .absent, .absent⟩
    ⟨.invalid, .absent, .absent, .absent⟩
    ⟨none, some "E1", some 1, none, some "u"⟩
    ⟨none⟩ (by decide) (by decide) (by decide) (by decide)

/-! ### C9 -/

/-- C9: `getFeaturedContent` returns an `Option`, hence at most one item
no matter how many rows are featured; a returned item is an active
featured row whose `createdAt` is maximal among the active featured rows,
and when no active featured row exists the result is `none`. -/
theorem featured_newest_or_none (c : List Content) :
    (∀ r, getFeaturedContent c = some r →
      r ∈ c ∧ r.isFeatured = true ∧ r.isActive = true ∧
      ∀ r2 ∈ c, r2.isFeatured = true → r2.isActive = true →
        r2.createdAt ≤ r.createdAt) ∧
    ((∀ r ∈ c, ¬(r.isFeatured = true ∧ r.isActive = true)) →
      getFeaturedContent c = none) := by
  constructor
  · intro r hr
    unfold getFeaturedContent at hr
    have hmem : r ∈ List.insertionSort byNewest
        (c.filter (fun x => x.isFeatured && x.isActive)) := head?_mem hr
    rw [List.mem_insertionSort] at hmem
    obtain ⟨hrc, hrp⟩ := List.mem_filter.mp hmem
    rw [Bool.and_eq_true] at hrp
    refine ⟨hrc, hrp.1, hrp.2, ?_⟩
    intro r2 h2c h2f h2a
    have h2filter : r2 ∈ c.filter (fun x => x.isFeatured && x.isActive) :=
      List.mem_filter.mpr ⟨h2c, by rw [h2f, h2a]; rfl⟩
    have h2sort : r2 ∈ List.insertionSort byNewest
        (c.filter (fun x => x.isFeatured && x.isActive)) := by
      rw [List.mem_insertionSort]; exact h2filter
    have hsorted : List.Sorted byNewest (List.insertionSort byNewest
        (c.filter (fun x => x.isFeatured && x.isActive))) :=
      List.sorted_insertionSort byNewest _
    cases hL : List.insertionSort byNewest
        (c.filter (fun x => x.isFeatured && x.isActive)) with
    | nil => rw [hL] at hr; simp at hr
    | cons x tl =>
      rw [hL] at hr h2sort hsorted
      simp only [List.head?] at hr
      injection hr with hr
      subst hr
      rcases List.mem_cons.mp h2sort with h2eq | h2tl
      · rw [h2eq]
      · exact List.rel_of_sorted_cons hsorted r2 h2tl
  · intro h
    unfold getFeaturedContent
    have hfil : c.filter (fun x => x.isFeatured && x.isActive) = [] := by
      apply List.filter_eq_nil_iff.mpr
      intro x hx hpx
      rw [Bool.and_eq_true] at hpx
      exact h x hx ⟨hpx.1, hpx.2⟩
    rw [hfil]
    rfl

/-- Concrete instantiation of `featured_newest_or_none`: among two active
featured rows the newer one is returned, and with only inactive featured
rows the result is absent. -/
theorem featured_newest_or_none_witness :
    ((⟨"2", "B", "movie", true, true, 0, 9, 0⟩ : Content) ∈
        [⟨"1", "A", "movie", true, true, 0, 4, 0⟩,
         ⟨"2", "B", "movie", true, true, 0, 9, 0⟩] ∧
      (⟨"2", "B", "movie", true, true, 0, 9, 0⟩ : Content).isFeatured = true ∧
      (⟨"2", "B", "movie", true, true, 0, 9, 0⟩ : Content).isActive = true ∧
      ∀ r2 ∈ [⟨"1", "A", "movie", true, true, 0, 4, 0⟩,
          (⟨"2", "B", "movie", true, true, 0, 9, 0⟩ : Content)],
        r2.isFeatured = true → r2.isActive = true →
        r2.createdAt ≤ (⟨"2", "B", "movie", true, true, 0, 9, 0⟩ :
          Content).createdAt) ∧
    getFeaturedContent [⟨"3", "C", "movie", false, true, 0, 1, 0⟩] = none :=
  ⟨(featured_newest_or_none
      [⟨"1", "A", "movie", true, true, 0, 4, 0⟩,
       ⟨"2", "B", "movie", true, true, 0, 9, 0⟩]).1
     ⟨"2", "B", "movie", true, true, 0, 9, 0⟩ (by decide),
   (featured_newest_or_none [⟨"3", "C", "movie", false, true, 0, 1, 0⟩]).2
     (by decide)⟩

/-! ### C8 -/

/-- The empty suffix is always among `tailsOf`, so a bare `'%'` tail of a
pattern always matches. -/
lemma tailsOf_any_isEmpty (s : List Char) :
    (tailsOf s).any (fun t => t.isEmpty) = true := by
  induction s with
  | nil => rfl
  | cons c cs ih => simp [tailsOf, ih]

/-- A pattern of ordinary characters followed by a single `'%'` matches a
subject exactly when the ordinary characters match its head
case-insensitively. -/
lemma likeMatch_append_percent : ∀ (q : List Char),
    (∀ ch ∈ q, ch ≠ '%' ∧ ch ≠ '_' ∧ ch ≠ '\\') →
    ∀ s, likeMatch (q ++ ['%']) s = headMatchCI q s := by
  intro q
  induction q with
  | nil =>
    intro _ s
    show likeMatch ['%'] s = headMatchCI [] s
    rw [likeMatch_cons, if_neg (by decide), if_pos rfl, headMatchCI]
    have : (fun t => likeMatch [] t) = fun t : List Char => t.isEmpty := by
      funext t
      rw [likeMatch_nil]
    rw [this, tailsOf_any_isEmpty]
  | cons a q' ih =>
    intro hq s
    have ha := hq a (List.mem_cons_self _ _)
    have hq' : ∀ ch ∈ q', ch ≠ '%' ∧ ch ≠ '_' ∧ ch ≠ '\\' :=
      fun ch hch => hq ch (List.mem_cons_of_mem _ hch)
    show likeMatch (a :: (q' ++ ['%'])) s = headMatchCI (a :: q') s
    rw [likeMatch_cons, if_neg ha.2.2, if_neg ha.1, if_neg ha.2.1]
    cases s with
    | nil => rfl
    | cons c t =>
      show ((a.toLower == c.toLower) && likeMatch (q' ++ ['%']) t) =
        headMatchCI (a :: q') (c :: t)
      rw [ih hq' t, headMatchCI]

/-- For a query without the SQL wildcard and escape characters, the
`%query%` pattern the code builds matches a subject exactly when the query
occurs in it as a case-insensitive substring. -/
lemma likeMatch_sqlPattern (q : String)
    (hq : ∀ ch ∈ q.toList, ch ≠ '%' ∧ ch ≠ '_' ∧ ch ≠ '\\') (s : List Char) :
    likeMatch (sqlPattern q) s = occursCI q.toList s := by
  have hpat : sqlPattern q = '%' :: (q.toList ++ ['%']) := by
    cases q
    rfl
  rw [hpat, likeMatch_cons, if_neg (by decide), if_pos rfl, occursCI]
  have : (fun t => likeMatch (q.toList ++ ['%']) t) =
      fun t => headMatchCI q.toList t := by
    funext t
    rw [likeMatch_append_percent q.toList hq t]
  rw [this]

/-- C8 counterexample: the claim fails for a query containing `'%'`.  The
query `"a%b"` is not a substring of the title `"axb"`, yet `searchContent`
returns that row, because the query is spliced into the `ILIKE` pattern
unescaped and its `'%'` acts as a wildcard. -/
theorem searchContent_percent_counterexample :
    searchContent "a%b" [⟨"1", "axb", "movie", true, false, 0, 0, 0⟩] =
      [⟨"1", "axb", "movie", true, false, 0, 0, 0⟩] ∧
    containsCI "axb" "a%b" = false := by
  decide

/-- C8 amended: for every query without the SQL wildcard characters `'%'`
and `'_'` and the escape character backslash, `searchContent` returns
exactly the active rows whose title contains the query as a
case-insensitive substring — as a list, a permutation of that filter of
the table — ordered by `createdAt` descending; a query containing one of
those characters is instead interpreted through the `ILIKE` pattern
(wildcards and escapes), as the counterexample shows. -/
theorem searchContent_substring_when_no_wildcards (q : String)
    (c : List Content)
    (hq : ∀ ch ∈ q.toList, ch ≠ '%' ∧ ch ≠ '_' ∧ ch ≠ '\\') :
    (searchContent q c).Perm
      (c.filter (fun r => r.isActive && containsCI r.title q)) ∧
    List.Sorted byNewest (searchContent q c) := by
  constructor
  · unfold searchContent
    have hfil : c.filter
        (fun r => r.isActive && likeMatch (sqlPattern q) r.title.toList) =
        c.filter (fun r => r.isActive && containsCI r.title q) := by
      apply List.filter_congr
      intro r _
      rw [likeMatch_sqlPattern q hq r.title.toList]
      rfl
    rw [hfil]
    exact List.perm_insertionSort byNewest _
  · exact List.sorted_insertionSort byNewest _

/-- Concrete instantiation of `searchContent_substring_when_no_wildcards`
on a wildcard-free query. -/
theorem searchContent_substring_when_no_wildcards_witness :
    (searchContent "mat" [⟨"1", "The Matrix", "movie", true, false, 0, 0, 0⟩,
        ⟨"2", "Heat", "movie", true, false, 0, 1, 0⟩]).Perm
      ([⟨"1", "The Matrix", "movie", true, false, 0, 0, 0⟩,
        ⟨"2", "Heat", "movie", true, false, 0, 1, 0⟩].filter
        (fun r => r.isActive && containsCI r.title "mat")) ∧
    List.Sorted byNewest (searchContent "mat"
      [⟨"1", "The Matrix", "movie", true, false, 0, 0, 0⟩,
       ⟨"2", "Heat", "movie", true, false, 0, 1, 0⟩]) :=
  searchContent_substring_when_no_wildcards "mat"
    [⟨"1", "The Matrix", "movie", true, false, 0, 0, 0⟩,
     ⟨"2", "Heat", "movie", true, false, 0, 1, 0⟩] (by decide)

/-! ### C6 -/

/-- A row found by `lookupContent` carries the id it was looked up by. -/
lemma lookupContent_id_eq {id : String} {c : List Content} {r : Content}
    (h : lookupContent id c = some r) : (r.id == id) = true :=
  List.find?_some (p := fun x : Content => x.id == id) h

/-- C6: across the whole HTTP surface, the only operation that changes the
stored `viewCount` of a row that exists before and after the request is
the view-count increment performed by `GET /api/content/:id`, and it adds
exactly one; `POST`/`PUT` of admin content cannot touch the counter because
the insert schema omits `viewCount`, so the parsed bodies carry no such
field. -/
theorem viewCount_changed_only_by_increment (req : Request) (db : DB)
    (id : String) (r r2 : Content)
    (h1 : lookupContent id db.content = some r)
    (h2 : lookupContent id (handleRequest req db).2.content = some r2) :
    r2.viewCount = if bumpsView req id db.content then r.viewCount + 1
      else r.viewCount := by
  cases req with
  | contentAll =>
    simp only [handleRequest] at h2
    rw [h1] at h2
    injection h2 with h2
    subst h2
    simp [bumpsView]
  | contentFeatured =>
    simp only [handleRequest] at h2
    rw [h1] at h2
    injection h2 with h2
    subst h2
    simp [bumpsView]
  | contentPopular =>
    simp only [handleRequest] at h2
    rw [h1] at h2
    injection h2 with h2
    subst h2
    simp [bumpsView]
  | contentNew =>
    simp only [handleRequest] at h2
    rw [h1] at h2
    injection h2 with h2
    subst h2
    simp [bumpsView]
  | contentSearch q =>
    simp only [handleRequest] at h2
    rw [h1] at h2
    injection h2 with h2
    subst h2
    simp [bumpsView]
  | contentOfType ty =>
    simp only [handleRequest] at h2
    rw [h1] at h2
    injection h2 with h2
    subst h2
    simp [bumpsView]
  | getEpisodes cid =>
    simp only [handleRequest] at h2
    rw [h1] at h2
    injection h2 with h2
    subst h2
    simp [bumpsView]
  | listFavorites u =>
    simp only [handleRequest] at h2
    rw [h1] at h2
    injection h2 with h2
    subst h2
    simp [bumpsView]
  | checkFavorite u cid =>
    simp only [handleRequest] at h2
    rw [h1] at h2
    injection h2 with h2
    subst h2
    simp [bumpsView]
  | verifyAdmin pw =>
    simp only [handleRequest] at h2
    rw [h1] at h2
    injection h2 with h2
    subst h2
    simp [bumpsView]
  | removeFavorite u cid =>
    simp only [handleRequest, deleteFavoriteRoute] at h2
    rw [h1] at h2
    injection h2 with h2
    subst h2
    simp [bumpsView]
  | addFavorite u b newId now =>
    simp only [handleRequest, postFavorites] at h2
    cases hparse : parseInsertFavorite u b with
    | none =>
      rw [hparse] at h2
      simp only at h2
      rw [h1] at h2
      injection h2 with h2
      subst h2
      simp [bumpsView]
    | some val =>
      rw [hparse] at h2
      simp only at h2
      rw [h1] at h2
      injection h2 with h2
      subst h2
      simp [bumpsView]
  | createContentReq pw b newId now =>
    simp only [handleRequest, adminCreateContent] at h2
    split at h2
    · rw [h1] at h2
      injection h2 with h2
      subst h2
      simp [bumpsView]
    · cases hparse : parseInsertContent b with
      | none =>
        rw [hparse] at h2
        simp only at h2
        rw [h1] at h2
        injection h2 with h2
        subst h2
        simp [bumpsView]
      | some d =>
        rw [hparse] at h2
        simp only at h2
        rw [createContent, lookupContent_append _ h1] at h2
        injection h2 with h2
        subst h2
        simp [bumpsView]
  | updateContentReq pw tid b now =>
    simp only [handleRequest, adminUpdateContent] at h2
    split at h2
    · rw [h1] at h2
      injection h2 with h2
      subst h2
      simp [bumpsView]
    · cases hparse : parseContentUpdate b with
      | none =>
        rw [hparse] at h2
        simp only at h2
        rw [h1] at h2
        injection h2 with h2
        subst h2
        simp [bumpsView]
      | some d =>
        rw [hparse] at h2
        simp only at h2
        rw [updateContent, lookupContent_map _ (fun x => by
            by_cases hx : (x.id == tid) = true
            · rw [if_pos hx]
              rfl
            · rw [if_neg hx]) id db.content, h1, Option.map_some'] at h2
        injection h2 with h2
        subst h2
        simp only [bumpsView]
        by_cases hx : (r.id == tid) = true
        · rw [if_pos hx]
          simp [applyUpdate]
        · rw [if_neg hx]
          simp
  | deleteContentReq pw tid =>
    simp only [handleRequest, adminDeleteContent] at h2
    split at h2
    · rw [h1] at h2
      injection h2 with h2
      subst h2
      simp [bumpsView]
    · by_cases htid : tid = id
      · subst htid
        rw [lookupContent_delete] at h2
        exact absurd h2 (by simp)
      · rw [deleteContent, lookupContent_filter _ id db.content (fun x hx => by
            have hxid : x.id = id := beq_iff_eq.mp hx
            have : (x.id == tid) = false := by
              apply beq_eq_false_iff_ne.mpr
              rw [hxid]
              exact fun hcon => htid hcon.symm
            rw [this]
            rfl), h1] at h2
        injection h2 with h2
        subst h2
        simp [bumpsView]
  | createEpisodeReq pw b newId now =>
    simp only [handleRequest, adminCreateEpisode] at h2
    split at h2
    · rw [h1] at h2
      injection h2 with h2
      subst h2
      simp [bumpsView]
    · cases hparse : parseInsertEpisode b with
      | none =>
        rw [hparse] at h2
        simp only at h2
        rw [h1] at h2
        injection h2 with h2
        subst h2
        simp [bumpsView]
      | some d =>
        rw [hparse] at h2
        simp only at h2
        rw [h1] at h2
        injection h2 with h2
        subst h2
        simp [bumpsView]
  | getContent rid =>
    simp only [handleRequest, getContentByIdRoute] at h2
    cases hfind : getContentById rid db.content with
    | none =>
      rw [hfind] at h2
      simp only at h2
      rw [h1] at h2
      injection h2 with h2
      subst h2
      simp [bumpsView, hfind]
    | some x =>
      rw [hfind] at h2
      simp only at h2
      rw [incrementViewCount, lookupContent_map _ (fun y => by
          by_cases hy : (y.id == rid) = true
          · rw [if_pos hy]
          · rw [if_neg hy]) id db.content, h1, Option.map_some'] at h2
      injection h2 with h2
      subst h2
      simp only [bumpsView, hfind, Option.isSome_some, Bool.and_true]
      by_cases hb : (rid == id) = true
      · have hr : (r.id == rid) = true := by
          rw [beq_iff_eq.mp hb]
          exact lookupContent_id_eq h1
        rw [if_pos hr, if_pos hb]
      · have hr : (r.id == rid) = false := by
          apply beq_eq_false_iff_ne.mpr
          rw [beq_iff_eq.mp (lookupContent_id_eq h1)]
          exact fun hcon => hb (beq_iff_eq.mpr hcon.symm)
        rw [if_neg (by rw [hr]; exact Bool.false_ne_true), if_neg hb]

/-- Concrete instantiation of `viewCount_changed_only_by_increment` on the
one request that does bump the counter. -/
theorem viewCount_changed_only_by_increment_witness :
    (⟨"1", "A", "movie", true, false, 6, 0, 0⟩ : Content).viewCount =
      if bumpsView (Request.getContent "1") "1"
          [⟨"1", "A", "movie", true, false, 5, 0, 0⟩] then
        (⟨"1", "A", "movie", true, false, 5, 0, 0⟩ : Content).viewCount + 1
      else (⟨"1", "A", "movie", true, false, 5, 0, 0⟩ : Content).viewCount :=
  viewCount_changed_only_by_increment (Request.getContent "1")
    ⟨[⟨"1", "A", "movie", true, false, 5, 0, 0⟩], [], []⟩ "1"
    ⟨"1", "A", "movie", true, false, 5, 0, 0⟩
    ⟨"1", "A", "movie", true, false, 6, 0, 0⟩
    (by decide) (by decide)

end Filmsy

